import Mathlib

/-!
Shallow embedding of src/deepSM/SMDataset.py (module version 2-0-0).

The module defines one class, SMDataset, wrapping a song's spectral feature
tensor and per-difficulty label arrays, exposing a flat-indexed collection of
context-windowed samples, plus an HDF5 save method and a module-level load
function.

Modelling conventions:
* numpy / torch arrays are modelled as shape tuples plus total index functions
  (Vec / Tensor2 / Tensor3 / Tensor4 below); values are a type parameter.
  dtype casts (.float(), .astype(np.float32)) are value-preserving here.
* Python exceptions are modelled with Except PyError; the specific exception
  class raised at each point is recorded in the error value.
* Python // and % on ints are floor division and floor modulus: Int.fdiv and
  Int.fmod (Int.fmod takes the divisor's sign, matching Python).
* Python list indexing and numpy integer indexing accept negative indices
  (wrap-around by the axis length) and raise IndexError outside [-n, n).
  numpy slice bounds are clamped (adding n to negative bounds first); slicing
  never raises.
* torch.Tensor.unfold(1, size, 1) along an axis of length L requires
  size <= L (RuntimeError otherwise) and yields L - size + 1 windows, the
  window offset becoming a new trailing axis.
* The global table utils.difficulties (difficulty name -> integer code, from
  deepSM/utils.py, outside this file) is passed as an explicit parameter
  dcode; utils.BASE_PATH is likewise a parameter of load.
* The filesystem used by save/load is modelled as path-keyed containers; the
  directory-existence checks and os.mkdir calls in save are environment
  operations assumed not to fail and are not part of the returned value.
-/

namespace DeepSM

/-- Python exception classes that the translated code can raise. -/
inductive PyError where
  | valueError
  | indexError
  | keyError
  | zeroDivisionError
  | runtimeError
  | unboundLocalError
  | unicodeEncodeError
  | ioError
  deriving DecidableEq, Repr

/-- one-axis array: length and entries. -/
structure Vec (α : Type) where
  len : Nat
  data : Nat → α

/-- two-axis array: shape and entries. -/
structure Tensor2 (α : Type) where
  shape : Nat × Nat
  data : Nat → Nat → α

/-- three-axis array: shape and entries. -/
structure Tensor3 (α : Type) where
  shape : Nat × Nat × Nat
  data : Nat → Nat → Nat → α

/-- four-axis array: shape and entries. -/
structure Tensor4 (α : Type) where
  shape : Nat × Nat × Nat × Nat
  data : Nat → Nat → Nat → Nat → α

/-- result of torch.squeeze(t, 0): three axes if axis 0 had size 1,
otherwise the tensor unchanged. -/
inductive SqueezeRes (α : Type) where
  | t3 (t : Tensor3 α)
  | t4 (t : Tensor4 α)

/-- torch.squeeze(t, 0): drop axis 0 exactly when its size is 1. -/
def Tensor4.squeeze0 {α : Type} (t : Tensor4 α) : SqueezeRes α :=
  if t.shape.1 = 1 then
    .t3 ⟨(t.shape.2.1, t.shape.2.2.1, t.shape.2.2.2), fun a b c => t.data 0 a b c⟩
  else .t4 t

/-- Python list indexing l[i]: negative i counts from the end; IndexError
outside [-len, len). -/
def pyListGet {α : Type} (l : List α) (i : Int) : Except PyError α :=
  let j := if i < 0 then i + l.length else i
  if 0 ≤ j ∧ j < (l.length : Int) then
    match l.get? j.toNat with
    | some a => .ok a
    | none => .error .indexError
  else .error .indexError

/-- numpy integer indexing on an axis of length n: negative index has n
added; IndexError outside [-n, n). Returns the normalized index. -/
def npIndex (n : Nat) (i : Int) : Except PyError Nat :=
  let j := if i < 0 then i + n else i
  if 0 ≤ j ∧ j < (n : Int) then .ok j.toNat else .error .indexError

/-- numpy slice-bound normalization on an axis of length n: a negative bound
has n added, then the bound is clamped into [0, n]. -/
def npBound (n : Nat) (i : Int) : Nat :=
  if i < 0 then ((n : Int) + i).toNat else min i.toNat n

/-- the SMDataset object: constructor arguments kept verbatim plus the
derived attributes set in __init__ (lines 40-78). -/
structure SMDataset (α : Type) where
  song_name : String
  fft_features : Tensor3 α
  step_pos_labels : Tensor2 α
  step_type_labels : Tensor3 α
  diffs : List String
  step_predictions : Option (Tensor2 α)
  N_frames : Nat
  context_size : Nat
  conv : Bool
  chunk_size : Int
  sample_length : Int

/-- SMDataset.__init__ (lines 35-78). sigmoid is the elementwise map
x -> 1 / (1 + np.exp(-x)) of line 51, abstracted over the scalar type;
it is applied to step_predictions at construction time. chunk_size None
selects conv mode with chunk 1; positive values are taken as is; -1 resolves
to N_frames - context_size * 2; anything else raises ValueError. -/
def SMDataset.init {α : Type} (sigmoid : α → α) (song_name : String)
    (fft_features : Tensor3 α) (step_pos_labels : Tensor2 α)
    (step_type_labels : Tensor3 α) (diffs : List String)
    (chunk_size : Option Int) (context_size : Nat)
    (step_predictions : Option (Tensor2 α)) :
    Except PyError (SMDataset α) :=
  let preds := step_predictions.map fun t =>
    (⟨t.shape, fun i j => sigmoid (t.data i j)⟩ : Tensor2 α)
  let N_frames := fft_features.shape.2.1
  let parsed : Except PyError (Bool × Int) :=
    match chunk_size with
    | none => .ok (true, 1)
    | some c =>
      if c > 0 then .ok (false, c)
      else if c = -1 then .ok (false, (N_frames : Int) - (context_size : Int) * 2)
      else .error .valueError
  match parsed with
  | .error e => .error e
  | .ok (conv, cs) =>
      .ok { song_name := song_name
            fft_features := fft_features
            step_pos_labels := step_pos_labels
            step_type_labels := step_type_labels
            diffs := diffs
            step_predictions := preds
            N_frames := N_frames
            context_size := context_size
            conv := conv
            chunk_size := cs
            sample_length := (N_frames : Int) - cs - (context_size : Int) * 2 + 1 }

/-- SMDataset.__len__ (lines 82-85): len(self.diffs) * self.sample_length. -/
def SMDataset.len {α : Type} (ds : SMDataset α) : Int :=
  (ds.diffs.length : Int) * ds.sample_length

/-- the intermediate values computed by __getitem__ lines 93-116, before the
mode branch at line 118. -/
structure Windows (α : Type) where
  diff_idx : Int
  frame_idx : Int
  window_size : Nat
  fft_features : Tensor4 α
  diff_mtx : Tensor2 α
  step_pos_labels : Vec α
  step_type_labels : Tensor2 α

/-- SMDataset.__getitem__ lines 93-116: flat index decomposition, feature
slice + unfold + the two transposes, the one-hot difficulty matrix, and the
label slices. The unfold of line 108 turns the sliced frame axis (length L)
into L - window_size + 1 windows with the window offset as a new last axis;
after transpose(2,3) and transpose(0,1) the result axes are
[chunk position, channel, window offset, frequency bin]. -/
def SMDataset.computeSample {α : Type} [Zero α] [One α]
    (dcode : String → Option Int) (ds : SMDataset α) (idx : Int) :
    Except PyError (Windows α) :=
  if ds.sample_length = 0 then .error .zeroDivisionError else
  let diff_idx := Int.fdiv idx ds.sample_length
  let frame_idx := Int.fmod idx ds.sample_length
  match pyListGet ds.diffs diff_idx with
  | .error e => .error e
  | .ok diff =>
    match dcode diff with
    | none => .error .keyError
    | some diff_code =>
      let window_size := 2 * ds.context_size + 1
      let C := ds.fft_features.shape.1
      let NF := ds.fft_features.shape.2.1
      let F := ds.fft_features.shape.2.2
      let lo := npBound NF frame_idx
      let hi := npBound NF (frame_idx + ds.chunk_size + (window_size : Int) - 1)
      let L := hi - lo
      if L < window_size then .error .runtimeError else
      let nW := L - window_size + 1
      let fftW : Tensor4 α :=
        ⟨(nW, C, window_size, F), fun p ch o f => ds.fft_features.data ch (lo + p + o) f⟩
      if ds.chunk_size < 0 then .error .valueError else
      match npIndex 5 diff_code with
      | .error e => .error e
      | .ok col =>
        let diff_mtx : Tensor2 α :=
          ⟨(ds.chunk_size.toNat, 5), fun _ j => if j = col then 1 else 0⟩
        match npIndex ds.step_pos_labels.shape.1 diff_idx with
        | .error e => .error e
        | .ok di =>
          let plo := npBound ds.step_pos_labels.shape.2 (frame_idx + (ds.context_size : Int))
          let phi := npBound ds.step_pos_labels.shape.2
            (frame_idx + (ds.context_size : Int) + ds.chunk_size)
          let pos : Vec α := ⟨phi - plo, fun i => ds.step_pos_labels.data di (plo + i)⟩
          match npIndex ds.step_type_labels.shape.1 diff_idx with
          | .error e => .error e
          | .ok ti =>
            let tlo := npBound ds.step_type_labels.shape.2.1
              (frame_idx + (ds.context_size : Int))
            let thi := npBound ds.step_type_labels.shape.2.1
              (frame_idx + (ds.context_size : Int) + ds.chunk_size)
            let typ : Tensor2 α :=
              ⟨(thi - tlo, ds.step_type_labels.shape.2.2),
               fun i j => ds.step_type_labels.data ti (tlo + i) j⟩
            .ok ⟨diff_idx, frame_idx, window_size, fftW, diff_mtx, pos, typ⟩

/-- the per-mode result dictionaries of __getitem__ lines 118-145. -/
inductive SampleRes (α : Type) where
  | conv (fft_features : SqueezeRes α) (diff : Vec α) (step_pos_labels : Vec α)
  | withPreds (fft_features : Tensor4 α) (diff : Tensor2 α)
      (step_pos_labels : Vec α) (step_type_labels : Tensor2 α)
      (step_predictions : Tensor2 α)
  | plain (fft_features : Tensor4 α) (diff : Tensor2 α)
      (step_pos_labels : Vec α) (step_type_labels : Tensor2 α)

/-- SMDataset.__getitem__ lines 118-145: conv mode squeezes axis 0 of the
feature window and flattens the difficulty matrix row-major; the prediction
branch takes the same central window slice of step_predictions (numpy
integer index + clamped slice on its own axes) reshaped to a column. -/
def SMDataset.assemble {α : Type} (ds : SMDataset α) (w : Windows α) :
    Except PyError (SampleRes α) :=
  if ds.conv then
    .ok (.conv w.fft_features.squeeze0
      ⟨w.diff_mtx.shape.1 * w.diff_mtx.shape.2,
       fun i => w.diff_mtx.data (i / w.diff_mtx.shape.2) (i % w.diff_mtx.shape.2)⟩
      w.step_pos_labels)
  else
    match ds.step_predictions with
    | some preds =>
      match npIndex preds.shape.1 w.diff_idx with
      | .error e => .error e
      | .ok pi =>
        let plo := npBound preds.shape.2 (w.frame_idx + (ds.context_size : Int))
        let phi := npBound preds.shape.2
          (w.frame_idx + (ds.context_size : Int) + ds.chunk_size)
        .ok (.withPreds w.fft_features w.diff_mtx w.step_pos_labels
          w.step_type_labels ⟨(phi - plo, 1), fun i _ => preds.data pi (plo + i)⟩)
    | none =>
      .ok (.plain w.fft_features w.diff_mtx w.step_pos_labels w.step_type_labels)

/-- SMDataset.__getitem__ (lines 88-145), the two stages chained. -/
def SMDataset.getitem {α : Type} [Zero α] [One α]
    (dcode : String → Option Int) (ds : SMDataset α) (idx : Int) :
    Except PyError (SampleRes α) :=
  match ds.computeSample dcode idx with
  | .error e => .error e
  | .ok w => ds.assemble w

/-- the contents of one saved HDF5 file: the attrs and datasets written by
SMDataset.save lines 160-172. -/
structure Container (α : Type) where
  song_name : String
  diffs : List String
  context_size : Nat
  fft_features : Tensor3 α
  step_pos_labels : Tensor2 α
  step_type_labels : Tensor3 α
  step_predictions : Option (Tensor2 α)

/-- np.array(. , dtype='S10') applied to one string (save line 163): ascii
encoding (UnicodeEncodeError on a non-ascii character) silently truncated to
the first 10 bytes. -/
def encS10 (s : String) : Except PyError String :=
  if ∀ ch ∈ s.data, ch.toNat < 128 then .ok ⟨s.data.take 10⟩
  else .error .unicodeEncodeError

/-- SMDataset.save (lines 148-172). With fname = None the default path
base_path/dataset_name/song_name/song_name.h5 is built from the local
song_name assigned on that branch. With an explicit fname the local
song_name is never assigned, yet line 157 reads it unconditionally for the
song-directory check, so Python raises UnboundLocalError there, before
h5py.File is opened; the directory checks and mkdirs themselves are
environment operations modelled as succeeding. On the default branch the
result is the path written and the container contents: song_name, the
'S10'-encoded diffs, context_size, the three tensors, and step_predictions
(the attribute, i.e. the values stored at construction) when present. -/
def SMDataset.save {α : Type} (ds : SMDataset α) (dataset_name : String)
    (base_path : String) (fname : Option String) :
    Except PyError (String × Container α) :=
  match fname with
  | some _ => .error .unboundLocalError
  | none =>
      let song_name := ds.song_name
      let f := base_path ++ "/" ++ dataset_name ++ "/" ++ song_name ++ "/" ++
        song_name ++ ".h5"
      match ds.diffs.mapM encS10 with
      | .error e => .error e
      | .ok ediffs =>
          .ok (f, ⟨ds.song_name, ediffs, ds.context_size, ds.fft_features,
                   ds.step_pos_labels, ds.step_type_labels, ds.step_predictions⟩)

/-- the path read by load (line 182):
f-string base_path/datasets/dataset_name/fname/fname.h5. -/
def loadH5Name (base_path dataset_name fname : String) : String :=
  base_path ++ "/datasets/" ++ dataset_name ++ "/" ++ fname ++ "/" ++ fname ++ ".h5"

/-- load lines 185-202: read the attrs and datasets of one open container
and construct an SMDataset from them. The stored diffs are ascii already, so
the per-entry decode('ascii') of line 186 is the identity here. context_size
falls back to the stored attr when the argument is None. -/
def readContainer {α : Type} (sigmoid : α → α) (hf : Container α)
    (chunk_size : Option Int) (context_size : Option Nat) :
    Except PyError (SMDataset α) :=
  let song_name := hf.song_name
  let diffs := hf.diffs
  let cs := match context_size with
    | none => hf.context_size
    | some c => c
  SMDataset.init sigmoid song_name hf.fft_features hf.step_pos_labels
    hf.step_type_labels diffs chunk_size cs hf.step_predictions

/-- load (lines 175-202): resolve the h5 path from base_path (default
utils.BASE_PATH), dataset_name and fname, look the file up in the
filesystem fs, then read it. In the source chunk_size defaults to 200 and
context_size to None. -/
def load {α : Type} (sigmoid : α → α) (fs : String → Option (Container α))
    (fname dataset_name : String) (chunk_size : Option Int)
    (base_path : String) (context_size : Option Nat) :
    Except PyError (SMDataset α) :=
  match fs (loadH5Name base_path dataset_name fname) with
  | none => .error .ioError
  | some hf => readContainer sigmoid hf chunk_size context_size

/-- the elementwise transform of line 51, 1 / (1 + np.exp(-x)), read over
the reals. -/
noncomputable def logistic (x : ℝ) : ℝ := 1 / (1 + Real.exp (-x))

/-- example spectral tensor: 2 channels, 9 frames, 3 frequency bins. -/
def exFFT : Tensor3 Int := ⟨(2, 9, 3), fun _ _ _ => 0⟩

/-- example step-position labels for 2 difficulties over 9 frames. -/
def exPos : Tensor2 Int := ⟨(2, 9), fun _ _ => 0⟩

/-- example step-type labels for 2 difficulties, 9 frames, 4 step types. -/
def exTyp : Tensor3 Int := ⟨(2, 9, 4), fun _ _ _ => 0⟩

/-- example difficulty-code table standing in for utils.difficulties. -/
def exDcode : String → Option Int :=
  fun d => if d = "Easy" then some 1 else if d = "Hard" then some 3 else none

/-- the dataset SMDataset.init produces from the example tensors with
diffs ["Easy", "Hard"], chunk_size 3 and context_size 1: sample_length is
9 - 3 - 2 + 1 = 5 and len is 10. -/
def exDS : SMDataset Int :=
  { song_name := "s", fft_features := exFFT, step_pos_labels := exPos,
    step_type_labels := exTyp, diffs := ["Easy", "Hard"],
    step_predictions := none, N_frames := 9, context_size := 1,
    conv := false, chunk_size := 3, sample_length := 5 }

/-- example spectral tensor with 10 frames, for the too-small-song case. -/
def exFFT10 : Tensor3 Int := ⟨(2, 10, 3), fun _ _ _ => 0⟩

/-- example step-position labels over 10 frames. -/
def exPos10 : Tensor2 Int := ⟨(1, 10), fun _ _ => 0⟩

/-- example step-type labels over 10 frames. -/
def exTyp10 : Tensor3 Int := ⟨(1, 10, 4), fun _ _ _ => 0⟩

/-- a dataset whose single difficulty name has 11 characters, exercising the
fixed-width 'S10' encoding of save. -/
def dsLong : SMDataset Int :=
  { song_name := "s", fft_features := exFFT, step_pos_labels := exPos,
    step_type_labels := exTyp, diffs := ["ABCDEFGHIJK"],
    step_predictions := none, N_frames := 9, context_size := 1,
    conv := false, chunk_size := 3, sample_length := 5 }

/-- real-valued example feature tensor, 1 channel, 3 frames, 1 bin. -/
def fftR : Tensor3 ℝ := ⟨(1, 3, 1), fun _ _ _ => 0⟩

/-- real-valued example step-position labels. -/
def posR : Tensor2 ℝ := ⟨(1, 3), fun _ _ => 0⟩

/-- real-valued example step-type labels. -/
def typR : Tensor3 ℝ := ⟨(1, 3, 2), fun _ _ _ => 0⟩

/-- real-valued example raw prediction array, all zeros. -/
def predR : Tensor2 ℝ := ⟨(1, 3), fun _ _ => 0⟩

/-! Shared lemmas about the embedding. -/

theorem init_ok_fields {α : Type} (sigmoid : α → α) (song_name : String)
    (fft : Tensor3 α) (pos : Tensor2 α) (typ : Tensor3 α) (diffs : List String)
    (chunk_size : Option Int) (context_size : Nat) (preds : Option (Tensor2 α))
    (ds : SMDataset α)
    (h : SMDataset.init sigmoid song_name fft pos typ diffs chunk_size
      context_size preds = .ok ds) :
    ds.song_name = song_name ∧ ds.fft_features = fft ∧
    ds.step_pos_labels = pos ∧ ds.step_type_labels = typ ∧
    ds.diffs = diffs ∧
    ds.step_predictions = preds.map (fun t =>
      (⟨t.shape, fun i j => sigmoid (t.data i j)⟩ : Tensor2 α)) ∧
    ds.N_frames = fft.shape.2.1 ∧ ds.context_size = context_size ∧
    ds.sample_length = (ds.N_frames : Int) - ds.chunk_size -
      (ds.context_size : Int) * 2 + 1 := by
  unfold SMDataset.init at h
  cases chunk_size with
  | none =>
    simp only [] at h
    injection h with h
    subst h
    exact ⟨rfl, rfl, rfl, rfl, rfl, rfl, rfl, rfl, rfl⟩
  | some cval =>
    simp only [] at h
    by_cases h1 : cval > 0
    · rw [if_pos h1] at h
      simp only [] at h
      injection h with h
      subst h
      exact ⟨rfl, rfl, rfl, rfl, rfl, rfl, rfl, rfl, rfl⟩
    · rw [if_neg h1] at h
      by_cases h2 : cval = -1
      · rw [if_pos h2] at h
        simp only [] at h
        injection h with h
        subst h
        exact ⟨rfl, rfl, rfl, rfl, rfl, rfl, rfl, rfl, rfl⟩
      · rw [if_neg h2] at h
        exact Except.noConfusion h

theorem save_ok_fields {α : Type} (ds : SMDataset α) (dataset_name base_path : String)
    (p : String) (c : Container α)
    (h : ds.save dataset_name base_path none = .ok (p, c)) :
    c.song_name = ds.song_name ∧ c.context_size = ds.context_size ∧
    c.fft_features = ds.fft_features ∧ c.step_pos_labels = ds.step_pos_labels ∧
    c.step_type_labels = ds.step_type_labels ∧
    c.step_predictions = ds.step_predictions ∧
    ds.diffs.mapM encS10 = .ok c.diffs ∧
    p = base_path ++ "/" ++ dataset_name ++ "/" ++ ds.song_name ++ "/" ++
      ds.song_name ++ ".h5" := by
  unfold SMDataset.save at h
  cases hm : ds.diffs.mapM encS10 with
  | error e =>
    rw [hm] at h
    exact Except.noConfusion h
  | ok l =>
    rw [hm] at h
    simp only [] at h
    injection h with h
    injection h with h1 h2
    subst h1
    subst h2
    exact ⟨rfl, rfl, rfl, rfl, rfl, rfl, rfl, rfl⟩

theorem encS10_ascii (s : String) (hascii : ∀ ch ∈ s.data, ch.toNat < 128) :
    encS10 s = .ok ⟨s.data.take 10⟩ := by
  unfold encS10
  rw [if_pos hascii]

theorem encS10_short (s : String) (hascii : ∀ ch ∈ s.data, ch.toNat < 128)
    (hlen : s.length ≤ 10) : encS10 s = .ok s := by
  rw [encS10_ascii s hascii]
  have hl : s.data.length ≤ 10 := hlen
  rw [List.take_of_length_le hl]

theorem mapM_encS10_id (l : List String)
    (h : ∀ d ∈ l, (∀ ch ∈ d.data, ch.toNat < 128) ∧ d.length ≤ 10) :
    l.mapM encS10 = .ok l := by
  induction l with
  | nil => rfl
  | cons a t ih =>
    rw [List.mapM_cons]
    obtain ⟨ha, hl⟩ := h a (by simp)
    rw [encS10_short a ha hl, ih (fun d hd => h d (by simp [hd]))]
    rfl

theorem pyListGet_nonneg_lt {α : Type} (l : List α) (i : Int) (h0 : 0 ≤ i)
    (h1 : i < (l.length : Int)) :
    ∃ hh : i.toNat < l.length, pyListGet l i = .ok (l.get ⟨i.toNat, hh⟩) := by
  have hh : i.toNat < l.length := by omega
  refine ⟨hh, ?_⟩
  unfold pyListGet
  simp only []
  rw [if_neg (by omega : ¬ i < 0)]
  rw [if_pos (show (0:Int) ≤ i ∧ i < (l.length : Int) from ⟨h0, h1⟩)]
  rw [List.get?_eq_get hh]

theorem pyListGet_ge {α : Type} (l : List α) (i : Int)
    (h : (l.length : Int) ≤ i) : pyListGet l i = .error .indexError := by
  unfold pyListGet
  simp only []
  rw [if_neg (by omega : ¬ i < 0)]
  rw [if_neg (by omega : ¬ ((0:Int) ≤ i ∧ i < (l.length : Int)))]

theorem npIndex_nonneg_lt (n : Nat) (i : Int) (h0 : 0 ≤ i)
    (h1 : i < (n : Int)) : npIndex n i = .ok i.toNat := by
  unfold npIndex
  simp only []
  rw [if_neg (by omega : ¬ i < 0)]
  rw [if_pos (show (0:Int) ≤ i ∧ i < (n : Int) from ⟨h0, h1⟩)]

theorem npIndex_range (n : Nat) (i : Int) (h0 : -(n : Int) ≤ i)
    (h1 : i < (n : Int)) : ∃ m : Nat, npIndex n i = .ok m ∧ m < n := by
  unfold npIndex
  simp only []
  by_cases hi : i < 0
  · rw [if_pos hi]
    rw [if_pos (show (0:Int) ≤ i + n ∧ i + n < (n : Int) from by
      constructor <;> omega)]
    exact ⟨_, rfl, by omega⟩
  · rw [if_neg hi]
    rw [if_pos (show (0:Int) ≤ i ∧ i < (n : Int) from ⟨by omega, h1⟩)]
    exact ⟨_, rfl, by omega⟩

theorem npBound_eq (n : Nat) (i : Int) (h0 : 0 ≤ i) (h1 : i ≤ (n : Int)) :
    npBound n i = i.toNat := by
  unfold npBound
  rw [if_neg (by omega : ¬ i < 0)]
  omega

theorem save_ok_of_short_ascii {α : Type} (ds : SMDataset α)
    (dataset_name base_path : String)
    (h : ∀ d ∈ ds.diffs, (∀ ch ∈ d.data, ch.toNat < 128) ∧ d.length ≤ 10) :
    ds.save dataset_name base_path none = .ok
      (base_path ++ "/" ++ dataset_name ++ "/" ++ ds.song_name ++ "/" ++
        ds.song_name ++ ".h5",
       ⟨ds.song_name, ds.diffs, ds.context_size, ds.fft_features,
        ds.step_pos_labels, ds.step_type_labels, ds.step_predictions⟩) := by
  unfold SMDataset.save
  rw [mapM_encS10_id ds.diffs h]

theorem computeSample_spec {α : Type} [Zero α] [One α]
    (dcode : String → Option Int) (ds : SMDataset α) (idx : Int)
    (hK : 1 ≤ ds.chunk_size)
    (hs : ds.sample_length = (ds.fft_features.shape.2.1 : Int) -
      ds.chunk_size - (ds.context_size : Int) * 2 + 1)
    (hposs : ds.step_pos_labels.shape =
      (ds.diffs.length, ds.fft_features.shape.2.1))
    (htyp1 : ds.step_type_labels.shape.1 = ds.diffs.length)
    (htyp2 : ds.step_type_labels.shape.2.1 = ds.fft_features.shape.2.1)
    (hcode : ∀ d ∈ ds.diffs, ∃ cd, dcode d = some cd ∧ -5 ≤ cd ∧ cd < 5)
    (h0 : 0 ≤ idx) (h1 : idx < ds.len) :
    ∃ w : Windows α, ds.computeSample dcode idx = .ok w ∧
      w.diff_idx = idx.fdiv ds.sample_length ∧
      w.frame_idx = idx.fmod ds.sample_length ∧
      0 ≤ w.diff_idx ∧ w.diff_idx < (ds.diffs.length : Int) ∧
      0 ≤ w.frame_idx ∧
      w.frame_idx + ds.chunk_size + (2 * (ds.context_size : Int) + 1) - 1 ≤
        (ds.fft_features.shape.2.1 : Int) ∧
      w.window_size = 2 * ds.context_size + 1 ∧
      w.fft_features.shape = (ds.chunk_size.toNat, ds.fft_features.shape.1,
        2 * ds.context_size + 1, ds.fft_features.shape.2.2) ∧
      (∀ p ch o f, w.fft_features.data p ch o f =
        ds.fft_features.data ch (w.frame_idx.toNat + p + o) f) ∧
      w.step_pos_labels.len = ds.chunk_size.toNat ∧
      (∀ i, w.step_pos_labels.data i =
        ds.step_pos_labels.data w.diff_idx.toNat
          (w.frame_idx.toNat + ds.context_size + i)) ∧
      w.step_type_labels.shape = (ds.chunk_size.toNat,
        ds.step_type_labels.shape.2.2) ∧
      (∀ i j, w.step_type_labels.data i j =
        ds.step_type_labels.data w.diff_idx.toNat
          (w.frame_idx.toNat + ds.context_size + i) j) := by
  have hlen : idx < (ds.diffs.length : Int) * ds.sample_length := h1
  have hs1 : 0 < ds.sample_length := by
    by_contra hc
    push_neg at hc
    have h2 : (ds.diffs.length : Int) * ds.sample_length ≤
        (ds.diffs.length : Int) * 0 :=
      mul_le_mul_of_nonneg_left hc (by omega)
    rw [mul_zero] at h2
    linarith
  have hfd : idx.fdiv ds.sample_length = idx / ds.sample_length :=
    Int.fdiv_eq_ediv idx (le_of_lt hs1)
  have hfm : idx.fmod ds.sample_length = idx % ds.sample_length :=
    Int.fmod_eq_emod idx (le_of_lt hs1)
  have hq0 : 0 ≤ idx.fdiv ds.sample_length := by
    rw [hfd]
    exact Int.ediv_nonneg h0 (le_of_lt hs1)
  have hqD : idx.fdiv ds.sample_length < (ds.diffs.length : Int) := by
    rw [hfd]
    exact (Int.ediv_lt_iff_lt_mul hs1).mpr hlen
  have hr0 : 0 ≤ idx.fmod ds.sample_length := by
    rw [hfm]
    exact Int.emod_nonneg idx (ne_of_gt hs1)
  have hrs : idx.fmod ds.sample_length < ds.sample_length := by
    rw [hfm]
    exact Int.emod_lt_of_pos idx hs1
  obtain ⟨hqlt, hgl⟩ := pyListGet_nonneg_lt ds.diffs
    (idx.fdiv ds.sample_length) hq0 hqD
  obtain ⟨cd, hcd, hcd0, hcd1⟩ := hcode
    (ds.diffs.get ⟨(idx.fdiv ds.sample_length).toNat, hqlt⟩)
    (ds.diffs.get_mem _ _)
  have hb1 : npBound ds.fft_features.shape.2.1 (idx.fmod ds.sample_length) =
      (idx.fmod ds.sample_length).toNat :=
    npBound_eq _ _ hr0 (by omega)
  have hb2 : npBound ds.fft_features.shape.2.1
      (idx.fmod ds.sample_length + ds.chunk_size +
        ((2 * ds.context_size + 1 : Nat) : Int) - 1) =
      (idx.fmod ds.sample_length + ds.chunk_size +
        ((2 * ds.context_size + 1 : Nat) : Int) - 1).toNat :=
    npBound_eq _ _ (by push_cast; omega) (by push_cast; omega)
  have hNP : ds.step_pos_labels.shape.2 = ds.fft_features.shape.2.1 := by
    rw [hposs]
  have hD : ds.step_pos_labels.shape.1 = ds.diffs.length := by
    rw [hposs]
  have hb3 : npBound ds.step_pos_labels.shape.2
      (idx.fmod ds.sample_length + (ds.context_size : Int)) =
      (idx.fmod ds.sample_length + (ds.context_size : Int)).toNat :=
    npBound_eq _ _ (by omega) (by rw [hNP]; omega)
  have hb4 : npBound ds.step_pos_labels.shape.2
      (idx.fmod ds.sample_length + (ds.context_size : Int) + ds.chunk_size) =
      (idx.fmod ds.sample_length + (ds.context_size : Int) +
        ds.chunk_size).toNat :=
    npBound_eq _ _ (by omega) (by rw [hNP]; omega)
  have hb5 : npBound ds.step_type_labels.shape.2.1
      (idx.fmod ds.sample_length + (ds.context_size : Int)) =
      (idx.fmod ds.sample_length + (ds.context_size : Int)).toNat :=
    npBound_eq _ _ (by omega) (by rw [htyp2]; omega)
  have hb6 : npBound ds.step_type_labels.shape.2.1
      (idx.fmod ds.sample_length + (ds.context_size : Int) + ds.chunk_size) =
      (idx.fmod ds.sample_length + (ds.context_size : Int) +
        ds.chunk_size).toNat :=
    npBound_eq _ _ (by omega) (by rw [htyp2]; omega)
  have hdi : npIndex ds.step_pos_labels.shape.1
      (idx.fdiv ds.sample_length) = .ok (idx.fdiv ds.sample_length).toNat :=
    npIndex_nonneg_lt _ _ hq0 (by rw [hD]; exact hqD)
  have hti : npIndex ds.step_type_labels.shape.1
      (idx.fdiv ds.sample_length) = .ok (idx.fdiv ds.sample_length).toNat :=
    npIndex_nonneg_lt _ _ hq0 (by rw [htyp1]; exact hqD)
  obtain ⟨col, hcol, hcol5⟩ := npIndex_range 5 cd (by omega) (by omega)
  unfold SMDataset.computeSample
  rw [if_neg (by omega : ¬ ds.sample_length = 0)]
  simp only []
  rw [hgl]
  simp only []
  rw [hcd]
  simp only []
  rw [hb1, hb2]
  split
  · next hcond => exact absurd hcond (by omega)
  · rw [if_neg (by omega : ¬ ds.chunk_size < 0)]
    rw [hcol]
    simp only []
    rw [hdi, hb3, hb4]
    simp only []
    rw [hti, hb5, hb6]
    simp only []
    refine ⟨_, rfl, rfl, rfl, hq0, hqD, hr0, ?_, rfl, ?_,
      fun _ _ _ _ => rfl, ?_, ?_, ?_, ?_⟩
    · simp only []
      omega
    · simp only [Prod.mk.injEq, eq_self_iff_true, and_true, true_and]
      omega
    · simp only []
      omega
    · intro i
      simp only []
      congr 1
      omega
    · simp only [Prod.mk.injEq, eq_self_iff_true, and_true, true_and]
      omega
    · intro i j
      simp only []
      congr 1
      omega

theorem assemble_ok {α : Type} (ds : SMDataset α) (w : Windows α)
    (hpred : ∀ t ∈ ds.step_predictions, t.shape.1 = ds.diffs.length)
    (hq0 : 0 ≤ w.diff_idx) (hqD : w.diff_idx < (ds.diffs.length : Int)) :
    ∃ r, ds.assemble w = .ok r := by
  unfold SMDataset.assemble
  by_cases hconv : ds.conv
  · rw [if_pos hconv]
    exact ⟨_, rfl⟩
  · rw [if_neg hconv]
    cases hp : ds.step_predictions with
    | none => exact ⟨_, rfl⟩
    | some preds =>
      have hsh : preds.shape.1 = ds.diffs.length := hpred preds (by simp [hp])
      simp only []
      rw [npIndex_nonneg_lt preds.shape.1 w.diff_idx hq0
        (by rw [hsh]; exact hqD)]
      simp only []
      exact ⟨_, rfl⟩

end DeepSM

namespace DeepSM

/-- C1: a constructed dataset's __len__ is num_difficulties *
(N_frames - chunk_size - 2*context_size + 1), that is num_difficulties *
sample_length with the resolved chunk_size. -/
theorem C1_len_formula {α : Type} (sigmoid : α → α) (song_name : String)
    (fft : Tensor3 α) (pos : Tensor2 α) (typ : Tensor3 α) (diffs : List String)
    (chunk_size : Option Int) (context_size : Nat) (preds : Option (Tensor2 α))
    (ds : SMDataset α)
    (h : SMDataset.init sigmoid song_name fft pos typ diffs chunk_size
      context_size preds = .ok ds) :
    ds.len = (diffs.length : Int) *
      ((ds.N_frames : Int) - ds.chunk_size - 2 * (ds.context_size : Int) + 1) := by
  obtain ⟨-, -, -, -, hdiffs, -, -, -, hsl⟩ :=
    init_ok_fields sigmoid song_name fft pos typ diffs chunk_size
      context_size preds ds h
  rw [SMDataset.len, hdiffs, hsl]
  ring

/-- witness for C1 at a concrete construction. -/
theorem C1_witness :
    ∃ ds : SMDataset Int,
      SMDataset.init (fun x => x) "song" exFFT exPos exTyp ["Easy", "Hard"]
        (some 3) 1 none = .ok ds ∧
      ds.len = ((["Easy", "Hard"] : List String).length : Int) *
        ((ds.N_frames : Int) - ds.chunk_size - 2 * (ds.context_size : Int) + 1) :=
  ⟨_, rfl, C1_len_formula (fun x => x) "song" exFFT exPos exTyp
    ["Easy", "Hard"] (some 3) 1 none _ rfl⟩

/-- C4: the constructor has no guard on sample_length. With N_frames = 10,
chunk_size = 5 and context_size = 10 it raises nothing and returns a dataset
whose sample_length is the negative value -14, contradicting the required
InvalidConfigurationError. -/
theorem C4_no_sample_length_guard :
    ∃ ds : SMDataset Int,
      SMDataset.init (fun x => x) "song" exFFT10 exPos10 exTyp10 ["Easy"]
        (some 5) 10 none = .ok ds ∧
      ds.sample_length = -14 :=
  ⟨_, rfl, by decide⟩

/-- C9: chunk-size mode -1 resolves chunk_size to N_frames - 2*context_size,
always yields sample_length = 1, and hence len equals the number of
difficulties: one sample per difficulty. -/
theorem C9_mode_neg_one {α : Type} (sigmoid : α → α) (song_name : String)
    (fft : Tensor3 α) (pos : Tensor2 α) (typ : Tensor3 α) (diffs : List String)
    (context_size : Nat) (preds : Option (Tensor2 α)) :
    ∃ ds : SMDataset α,
      SMDataset.init sigmoid song_name fft pos typ diffs (some (-1))
        context_size preds = .ok ds ∧
      ds.chunk_size = (fft.shape.2.1 : Int) - 2 * (context_size : Int) ∧
      ds.sample_length = 1 ∧
      ds.len = (diffs.length : Int) := by
  refine ⟨_, rfl, by ring, by ring, ?_⟩
  show (diffs.length : Int) *
    ((fft.shape.2.1 : Int) - ((fft.shape.2.1 : Int) - (context_size : Int) * 2) -
      (context_size : Int) * 2 + 1) = (diffs.length : Int)
  ring

/-- witness instance for C9 with N_frames = 500 and context_size = 7:
chunk_size resolves to 486. -/
theorem C9_witness :
    ∃ ds : SMDataset Int,
      SMDataset.init (fun x => x) "song" ⟨(2, 500, 3), fun _ _ _ => 0⟩
        ⟨(1, 500), fun _ _ => 0⟩ ⟨(1, 500, 4), fun _ _ _ => 0⟩ ["Easy"]
        (some (-1)) 7 none = .ok ds ∧
      ds.chunk_size = 486 ∧ ds.sample_length = 1 ∧ ds.len = 1 := by
  obtain ⟨ds, h1, h2, h3, h4⟩ :=
    C9_mode_neg_one (fun x : Int => x) "song" ⟨(2, 500, 3), fun _ _ _ => 0⟩
      ⟨(1, 500), fun _ _ => 0⟩ ⟨(1, 500, 4), fun _ _ _ => 0⟩ ["Easy"] 7 none
  exact ⟨ds, h1, by rw [h2]; decide, h3, by rw [h4]; decide⟩

/-- helper: save's default path re-associated into load's path shape. -/
theorem savePath_eq_loadPath (bp dn sn : String) :
    bp ++ "/datasets" ++ "/" ++ dn ++ "/" ++ sn ++ "/" ++ sn ++ ".h5" =
      loadH5Name bp dn sn := by
  unfold loadH5Name
  rw [String.append_assoc bp "/datasets" "/"]
  rw [(by decide : "/datasets" ++ "/" = "/datasets/")]

/-- C8 amended: load's path inserts a fixed "/datasets" segment after its
base path, so it equals save's default path exactly when save's base_path
is load's base_path followed by "/datasets"; for literally equal roots the
two paths differ. -/
theorem C8_path_amended {α : Type} (ds : SMDataset α)
    (base_path dataset_name : String) (p : String) (c : Container α)
    (hsave : ds.save dataset_name (base_path ++ "/datasets") none = .ok (p, c)) :
    loadH5Name base_path dataset_name ds.song_name = p := by
  obtain ⟨-, -, -, -, -, -, -, hp⟩ :=
    save_ok_fields ds dataset_name (base_path ++ "/datasets") p c hsave
  rw [hp]
  exact (savePath_eq_loadPath base_path dataset_name ds.song_name).symm

/-- witness for the amended C8 at concrete strings. -/
theorem C8_amended_witness :
    ∃ (p : String) (c : Container Int),
      exDS.save "d" ("root" ++ "/datasets") none = .ok (p, c) ∧
      loadH5Name "root" "d" exDS.song_name = p := by
  refine ⟨_, _, rfl, ?_⟩
  exact C8_path_amended exDS "root" "d" _ _ rfl

/-- C8 counterexample: with the same storage root "root" passed to both,
the path save writes and the path load reads differ. -/
theorem C8_counterexample :
    ∃ (p : String) (c : Container Int),
      exDS.save "d" "root" none = .ok (p, c) ∧
      loadH5Name "root" "d" exDS.song_name ≠ p := by
  refine ⟨_, _, rfl, ?_⟩
  decide

/-- C6 amended: loading a saved container restores the feature tensor, both
label arrays, the song name and context_size exactly; the difficulty list
is restored exactly provided every name is ascii with at most 10
characters (the fixed-width 'S10' attribute encoding truncates longer
names). -/
theorem C6_roundtrip_amended {α : Type} (sigmoid : α → α) (ds : SMDataset α)
    (dataset_name base_path : String) (cs : Int) (hcs : cs > 0)
    (hdiffs : ∀ d ∈ ds.diffs, (∀ ch ∈ d.data, ch.toNat < 128) ∧ d.length ≤ 10)
    (p : String) (c : Container α)
    (hsave : ds.save dataset_name base_path none = .ok (p, c)) :
    ∃ ds' : SMDataset α, readContainer sigmoid c (some cs) none = .ok ds' ∧
      ds'.fft_features = ds.fft_features ∧
      ds'.step_pos_labels = ds.step_pos_labels ∧
      ds'.step_type_labels = ds.step_type_labels ∧
      ds'.song_name = ds.song_name ∧
      ds'.diffs = ds.diffs ∧
      ds'.context_size = ds.context_size := by
  rw [save_ok_of_short_ascii ds dataset_name base_path hdiffs] at hsave
  injection hsave with h
  injection h with h1 h2
  subst h2
  unfold readContainer SMDataset.init
  simp only []
  rw [if_pos hcs]
  exact ⟨_, rfl, rfl, rfl, rfl, rfl, rfl, rfl⟩

/-- witness for the amended C6 at a concrete dataset. -/
theorem C6_witness :
    ∃ (p : String) (c : Container Int) (ds' : SMDataset Int),
      exDS.save "d" "datasets" none = .ok (p, c) ∧
      readContainer (fun x => x) c (some 200) none = .ok ds' ∧
      ds'.diffs = exDS.diffs ∧ ds'.song_name = exDS.song_name := by
  obtain ⟨ds', h1, h2, h3, h4, h5, h6, h7⟩ :=
    C6_roundtrip_amended (fun x : Int => x) exDS "d" "datasets" 200
      (by decide) (by decide) _ _ rfl
  exact ⟨_, _, ds', rfl, h1, h6, h5⟩

/-- C6 counterexample: an 11-character difficulty name is truncated by the
'S10' encoding, so the loaded dataset's difficulty list is not equal to the
saved dataset's. -/
theorem C6_counterexample :
    ∃ (p : String) (c : Container Int) (ds' : SMDataset Int),
      dsLong.save "d" "datasets" none = .ok (p, c) ∧
      readContainer (fun x => x) c (some 200) none = .ok ds' ∧
      ds'.diffs ≠ dsLong.diffs := by
  refine ⟨_, _, _, rfl, rfl, ?_⟩
  decide

/-- C7 amended: the logistic transform is applied to supplied predictions
at construction time, and save writes these transformed values: the
container holds logistic of the originally supplied raw values, not the
raw values. -/
theorem C7_save_transformed (song_name dataset_name base_path : String)
    (fft : Tensor3 ℝ) (pos : Tensor2 ℝ) (typ : Tensor3 ℝ) (diffs : List String)
    (chunk_size : Option Int) (context_size : Nat) (praw : Tensor2 ℝ)
    (ds : SMDataset ℝ) (p : String) (c : Container ℝ)
    (hinit : SMDataset.init logistic song_name fft pos typ diffs chunk_size
      context_size (some praw) = .ok ds)
    (hsave : ds.save dataset_name base_path none = .ok (p, c)) :
    c.step_predictions =
      some ⟨praw.shape, fun i j => logistic (praw.data i j)⟩ := by
  obtain ⟨-, -, -, -, -, hpreds, -, -, -⟩ :=
    init_ok_fields logistic song_name fft pos typ diffs chunk_size
      context_size (some praw) ds hinit
  obtain ⟨-, -, -, -, -, hcp, -, -⟩ :=
    save_ok_fields ds dataset_name base_path p c hsave
  rw [hcp, hpreds]
  rfl

/-- witness for the amended C7 at concrete real tensors. -/
theorem C7_witness :
    ∃ (ds : SMDataset ℝ) (p : String) (c : Container ℝ),
      SMDataset.init logistic "s" fftR posR typR ["Easy"] (some 1) 0
        (some predR) = .ok ds ∧
      ds.save "d" "datasets" none = .ok (p, c) ∧
      c.step_predictions =
        some ⟨predR.shape, fun i j => logistic (predR.data i j)⟩ := by
  refine ⟨_, _, _, rfl, rfl, ?_⟩
  exact C7_save_transformed "s" "d" "datasets" fftR posR typR ["Easy"]
    (some 1) 0 predR _ _ _ rfl rfl

/-- C7 counterexample: supplying the raw prediction value 0 stores
logistic 0 = 1/2 in the container, so the value read back from the
container is not the value originally supplied. -/
theorem C7_counterexample :
    ∃ (ds : SMDataset ℝ) (p : String) (c : Container ℝ) (t : Tensor2 ℝ),
      SMDataset.init logistic "s" fftR posR typR ["Easy"] (some 1) 0
        (some predR) = .ok ds ∧
      ds.save "d" "datasets" none = .ok (p, c) ∧
      c.step_predictions = some t ∧
      predR.data 0 0 = 0 ∧ t.data 0 0 ≠ predR.data 0 0 := by
  refine ⟨_, _, _, _, rfl, rfl, rfl, rfl, ?_⟩
  show logistic 0 ≠ 0
  unfold logistic
  rw [neg_zero, Real.exp_zero]
  norm_num

/-- C10: save called with an explicit file name always fails with
UnboundLocalError before writing anything: the local song_name is read by
the song-directory check although it is assigned only on the default-path
branch. -/
theorem C10_save_explicit_fname {α : Type} (ds : SMDataset α)
    (dataset_name base_path fname : String) :
    ds.save dataset_name base_path (some fname) = .error .unboundLocalError :=
  rfl

/-- C2: for every valid idx, the feature window built by __getitem__ has
exactly chunk_size entries on the chunk-position axis and exactly
2*context_size+1 entries on the window-offset axis, and the label slice
covers exactly the chunk_size frames starting at frame_offset +
context_size. -/
theorem C2_window_shape {α : Type} [Zero α] [One α]
    (dcode : String → Option Int) (ds : SMDataset α) (idx : Int)
    (hNF : ds.N_frames = ds.fft_features.shape.2.1)
    (hK : 1 ≤ ds.chunk_size)
    (hs : ds.sample_length = (ds.N_frames : Int) - ds.chunk_size -
      (ds.context_size : Int) * 2 + 1)
    (hposs : ds.step_pos_labels.shape = (ds.diffs.length, ds.N_frames))
    (htyp1 : ds.step_type_labels.shape.1 = ds.diffs.length)
    (htyp2 : ds.step_type_labels.shape.2.1 = ds.N_frames)
    (hcode : ∀ d ∈ ds.diffs, ∃ cd, dcode d = some cd ∧ -5 ≤ cd ∧ cd < 5)
    (h0 : 0 ≤ idx) (h1 : idx < ds.len) :
    ∃ w : Windows α, ds.computeSample dcode idx = .ok w ∧
      w.fft_features.shape.1 = ds.chunk_size.toNat ∧
      w.fft_features.shape.2.2.1 = 2 * ds.context_size + 1 ∧
      w.step_pos_labels.len = ds.chunk_size.toNat ∧
      (∀ i, w.step_pos_labels.data i =
        ds.step_pos_labels.data w.diff_idx.toNat
          (w.frame_idx.toNat + ds.context_size + i)) ∧
      w.frame_idx = idx.fmod ds.sample_length ∧
      w.step_type_labels.shape.1 = ds.chunk_size.toNat := by
  obtain ⟨w, hw, -, hwf, -, -, -, -, -, hshape, -, hlen, hdata, hts, -⟩ :=
    computeSample_spec dcode ds idx hK (by rw [← hNF]; exact hs)
      (by rw [← hNF]; exact hposs) htyp1 (by rw [← hNF]; exact htyp2)
      hcode h0 h1
  exact ⟨w, hw, by rw [hshape], by rw [hshape], hlen, hdata, hwf,
    by rw [hts]⟩

/-- witness for C2 at the concrete example dataset, idx 7. -/
theorem C2_witness :
    ∃ w : Windows Int, exDS.computeSample exDcode 7 = .ok w ∧
      w.fft_features.shape.1 = 3 ∧ w.fft_features.shape.2.2.1 = 3 ∧
      w.step_pos_labels.len = 3 := by
  obtain ⟨w, hw, h1, h2, h3, -, -, -⟩ :=
    C2_window_shape exDcode exDS 7 (by decide) (by decide) (by decide)
      (by decide) (by decide) (by decide)
      (by
        intro d hd
        fin_cases hd
        · exact ⟨1, by decide, by decide, by decide⟩
        · exact ⟨3, by decide, by decide, by decide⟩)
      (by decide) (by decide)
  exact ⟨w, hw, h1.trans (by decide), h2.trans (by decide),
    h3.trans (by decide)⟩

/-- C3: for every valid idx, __getitem__ raises nothing, and every frame
read for the feature window stays within the feature tensor:
frame_offset + chunk_size + window_size - 1 <= N_frames. -/
theorem C3_frames_in_bounds {α : Type} [Zero α] [One α]
    (dcode : String → Option Int) (ds : SMDataset α) (idx : Int)
    (hNF : ds.N_frames = ds.fft_features.shape.2.1)
    (hK : 1 ≤ ds.chunk_size)
    (hs : ds.sample_length = (ds.N_frames : Int) - ds.chunk_size -
      (ds.context_size : Int) * 2 + 1)
    (hposs : ds.step_pos_labels.shape = (ds.diffs.length, ds.N_frames))
    (htyp1 : ds.step_type_labels.shape.1 = ds.diffs.length)
    (htyp2 : ds.step_type_labels.shape.2.1 = ds.N_frames)
    (hpred : ∀ t ∈ ds.step_predictions, t.shape.1 = ds.diffs.length)
    (hcode : ∀ d ∈ ds.diffs, ∃ cd, dcode d = some cd ∧ -5 ≤ cd ∧ cd < 5)
    (h0 : 0 ≤ idx) (h1 : idx < ds.len) :
    ∃ r, ds.getitem dcode idx = .ok r ∧
      idx.fmod ds.sample_length + ds.chunk_size +
        (2 * (ds.context_size : Int) + 1) - 1 ≤ (ds.N_frames : Int) ∧
      ∀ p o : Nat, p < ds.chunk_size.toNat → o < 2 * ds.context_size + 1 →
        (idx.fmod ds.sample_length).toNat + p + o < ds.N_frames := by
  obtain ⟨w, hw, -, hwf, hq0w, hqDw, hr0w, hbound, -, -, -, -, -, -, -⟩ :=
    computeSample_spec dcode ds idx hK (by rw [← hNF]; exact hs)
      (by rw [← hNF]; exact hposs) htyp1 (by rw [← hNF]; exact htyp2)
      hcode h0 h1
  obtain ⟨r, hr⟩ := assemble_ok ds w hpred hq0w hqDw
  rw [hwf] at hbound hr0w
  refine ⟨r, ?_, ?_, ?_⟩
  · unfold SMDataset.getitem
    rw [hw]
    simp only []
    exact hr
  · rw [hNF]
    exact hbound
  · intro p o hp ho
    rw [hNF]
    omega

/-- witness for C3 at the concrete dataset with idx = length() - 1 = 9. -/
theorem C3_witness :
    ∃ r, exDS.getitem exDcode 9 = .ok r ∧
      (9 : Int).fmod exDS.sample_length + exDS.chunk_size +
        (2 * (exDS.context_size : Int) + 1) - 1 ≤ (exDS.N_frames : Int) := by
  obtain ⟨r, hr, hb, -⟩ :=
    C3_frames_in_bounds exDcode exDS 9 (by decide) (by decide) (by decide)
      (by decide) (by decide) (by decide)
      (by intro t ht; simp [exDS] at ht)
      (by
        intro d hd
        fin_cases hd
        · exact ⟨1, by decide, by decide, by decide⟩
        · exact ⟨3, by decide, by decide, by decide⟩)
      (by decide) (by decide)
  exact ⟨r, hr, hb⟩

/-- C5 amended: __getitem__ raises IndexError for every idx at or above
length(); negative idx are not rejected: Python floor division plus
negative list indexing wrap around, and an idx in [-length(), -1] can
return a sample instead of raising (see the counterexample). -/
theorem C5_amended_upper {α : Type} [Zero α] [One α]
    (dcode : String → Option Int) (ds : SMDataset α) (idx : Int)
    (hslen : 1 ≤ ds.sample_length) (hidx : ds.len ≤ idx) :
    ds.getitem dcode idx = .error .indexError := by
  have hs1 : 0 < ds.sample_length := hslen
  have hlen0 : (0 : Int) ≤ ds.len :=
    mul_nonneg (Int.natCast_nonneg _) (by omega)
  have hq : (ds.diffs.length : Int) ≤ idx.fdiv ds.sample_length := by
    rw [Int.fdiv_eq_ediv idx (le_of_lt hs1)]
    exact (Int.le_ediv_iff_mul_le hs1).mpr hidx
  unfold SMDataset.getitem SMDataset.computeSample
  rw [if_neg (by omega : ¬ ds.sample_length = 0)]
  simp only []
  rw [pyListGet_ge ds.diffs (idx.fdiv ds.sample_length) hq]

/-- witness for the amended C5: idx = length() = 10 raises IndexError. -/
theorem C5_amended_witness :
    exDS.getitem exDcode 10 = .error .indexError :=
  C5_amended_upper exDcode exDS 10 (by decide) (by decide)

/-- C5 counterexample: idx = -1 is outside [0, length()) yet __getitem__
returns a sample: the flat index is decomposed with Python floor division
and the list of difficulties is indexed with Python negative-index
wrap-around, so no index check fails. -/
theorem C5_counterexample :
    exDS.len = 10 ∧ (-1 : Int) < 0 ∧
      (exDS.getitem exDcode (-1)).isOk = true := by
  decide

end DeepSM
